import Mathlib

/-!
Verification of the location-based provider discovery and subscription-tier
ranking engine of a housing-society marketplace backend.

The definitions below are shallow embeddings of the Python request handlers:

* `calculate_distance` and `get_subscription_radius_km` from
  app/api/v1/providers.py (lines 34-67);
* the per-provider filter of `get_nearby_vendors` from
  app/api/v1/societies.py (lines 399-450), split into `nv_distance`,
  `nv_city_skip` and `nv_eligible`;
* the per-society filter of `get_nearby_societies` from
  app/api/v1/providers.py (lines 409-503), split into `search_radius`,
  `ns_city_same`, `ns_nocoord_city` and `ns_eligible`;
* the booking-time area restriction of `create_booking` from
  app/api/v1/bookings.py (lines 106-224), split into `booking_max_radius`,
  `booking_city_check`, `booking_area_check` and `create_booking`;
* the priority sort key (societies.py 455-463, providers.py 314-322) as
  `sort_key` / `prioLe` / `sortByPriority`;
* the offset/limit paginator as `paginate`.

Modelling conventions.  Nullable database columns are `Option` types
(`none` = SQL NULL).  Stored coordinates are rationals (`ℚ`); computed
distances live in `ℝ` because the haversine formula is transcendental.
Python truthiness is explicit: a float is truthy iff it is nonzero, a string
iff it is nonempty, `None` never, a list iff it is nonempty.  Fallible
handler steps return `Option`-valued errors.
-/

/-- Degrees to radians, as the Python function math.radians. -/
noncomputable def radians (x : ℝ) : ℝ := x * Real.pi / 180

/-- Two-argument arctangent, as the Python function math.atan2. -/
noncomputable def atan2 (y x : ℝ) : ℝ :=
  if 0 < x then Real.arctan (y / x)
  else if x < 0 then
    (if 0 ≤ y then Real.arctan (y / x) + Real.pi else Real.arctan (y / x) - Real.pi)
  else
    (if 0 < y then Real.pi / 2 else if y < 0 then -(Real.pi / 2) else 0)

/-- The haversine great-circle distance in kilometres on an Earth of radius
6371 km, exactly as written in the body of calculate_distance
(providers.py 39-51) and duplicated inline in create_booking
(bookings.py 130-140):
a = sin(delta_lat/2)^2 + cos(lat1_rad)*cos(lat2_rad)*sin(delta_lon/2)^2,
c = 2*atan2(sqrt(a), sqrt(1-a)), result R*c. -/
noncomputable def haversine (lat1 lon1 lat2 lon2 : ℝ) : ℝ :=
  6371 * (2 * atan2
    (Real.sqrt (Real.sin (radians (lat2 - lat1) / 2) ^ 2 +
      Real.cos (radians lat1) * Real.cos (radians lat2) *
        Real.sin (radians (lon2 - lon1) / 2) ^ 2))
    (Real.sqrt (1 - (Real.sin (radians (lat2 - lat1) / 2) ^ 2 +
      Real.cos (radians lat1) * Real.cos (radians lat2) *
        Real.sin (radians (lon2 - lon1) / 2) ^ 2))))

/-- calculate_distance (providers.py 34-51).  The guard is the Python line
`if not all([lat1, lon1, lat2, lon2]): return None`: any argument that is
falsy, i.e. equal to 0, yields None ("distance unknown"). -/
noncomputable def calculate_distance (lat1 lon1 lat2 lon2 : ℚ) : Option ℝ :=
  if lat1 = 0 ∨ lon1 = 0 ∨ lat2 = 0 ∨ lon2 = 0 then none
  else some (haversine (lat1 : ℝ) (lon1 : ℝ) (lat2 : ℝ) (lon2 : ℝ))

/-- get_subscription_radius_km (providers.py 54-67).  `if not
subscription_tier: return 10` catches both None and the empty string; the
dictionary lookup falls back to 10 for unknown tiers. -/
def get_subscription_radius_km (subscription_tier : Option String) : ℕ :=
  match subscription_tier with
  | none => 10
  | some t =>
    if t = "" then 10
    else if t = "basic_monthly" then 10
    else if t = "basic_yearly" then 10
    else if t = "premium_monthly" then 25
    else if t = "premium_yearly" then 25
    else if t = "elite_yearly" then 999999
    else 10

/-- The society rows read by this subsystem: nullable city and coordinates. -/
structure Society where
  city : Option String
  latitude : Option ℚ
  longitude : Option ℚ

/-- The service-provider rows read by this subsystem. -/
structure ServiceProvider where
  city : Option String
  latitude : Option ℚ
  longitude : Option ℚ
  service_areas : Option (List String)

/-- Python truthiness of a nullable numeric column: NULL and 0 are falsy. -/
def coordTruthy : Option ℚ → Bool
  | none => false
  | some x => decide (x ≠ 0)

/-- Subscription status enum (app/models/subscription.py). -/
inductive SubscriptionStatus where
  | pending_payment
  | active
  | expired
  | cancelled
deriving DecidableEq

/-- A subscription plan row: tier value string, priority weight, featured
flag (both nullable in the schema, read with `or 0` / `or False`). -/
structure VendorSubscriptionPlan where
  tier : String
  priority_ranking : Option ℤ
  featured_listing : Option Bool
deriving DecidableEq

/-- A vendor-subscription row joined with its (nullable) plan. -/
structure VendorSubscription where
  status : SubscriptionStatus
  end_date : ℤ
  plan : Option VendorSubscriptionPlan
deriving DecidableEq

/-- The active-subscription query repeated at every call site:
`status == ACTIVE AND end_date >= date.today()`, `.first()` modelled as
List.find? over the subscription rows of the provider.  The day is an integer. -/
def activeSubscription (today : ℤ) (subs : List VendorSubscription) :
    Option VendorSubscription :=
  subs.find? (fun sub =>
    decide (sub.status = SubscriptionStatus.active) && decide (today ≤ sub.end_date))

/-- subscription_tier = active_subscription.plan.tier.value if
active_subscription and active_subscription.plan else None. -/
def resolvedTier (today : ℤ) (subs : List VendorSubscription) : Option String :=
  match activeSubscription today subs with
  | some sub => sub.plan.map (fun pl => pl.tier)
  | none => none

/-- Structured form of the HTTPException detail raised by create_booking:
the radius rejection carries the max radius and the computed distance (the
source formats them into the message string), the city rejection carries
fixed text. -/
inductive BookingDetail where
  | radiusDetail (max_radius : ℕ) (distance_km : ℝ)
  | cityDetail

/-- An HTTPException: status code plus structured detail. -/
structure BookingErr where
  status : ℕ
  detail : BookingDetail

/-- The tier-to-radius dictionary duplicated inline in create_booking
(bookings.py 143-150) with its falsy-tier default
(`max_radius_map.get(subscription_tier, 10) if subscription_tier else 10`). -/
def booking_max_radius (tier : Option String) : ℕ :=
  match tier with
  | none => 10
  | some t =>
    if t = "" then 10
    else if t = "basic_monthly" then 10
    else if t = "basic_yearly" then 10
    else if t = "premium_monthly" then 25
    else if t = "premium_yearly" then 25
    else if t = "elite_yearly" then 999999
    else 10

/-- The Python method str.lower, character-wise lowercasing. -/
def pyLower (s : String) : String := String.mk (s.data.map Char.toLower)

/-- Case-insensitive city equality: a.lower() == b.lower(). -/
def lowerEq (a b : String) : Bool := pyLower a == pyLower b

/-- The condition `not subscription_tier or subscription_tier in
[basic_monthly, basic_yearly]` of bookings.py 160. -/
def basicOrNoTier (tier : Option String) : Bool :=
  match tier with
  | none => true
  | some t => (t == "") || (t == "basic_monthly") || (t == "basic_yearly")

/-- The city-fallback branch of create_booking (bookings.py 157-164):
reachable when not all four coordinates are truthy; rejects with 403 iff
both cities are truthy, differ after lowercasing, and the tier is falsy or
basic. -/
def booking_city_check (p : ServiceProvider) (s : Society) (tier : Option String) :
    Option BookingErr :=
  match p.city, s.city with
  | some pc, some sc =>
    if pc ≠ "" ∧ sc ≠ "" then
      (if ¬ lowerEq pc sc ∧ basicOrNoTier tier then
        some ⟨403, BookingDetail.cityDetail⟩
      else none)
    else none
  | _, _ => none

/-- The truthiness guard `provider.latitude and provider.longitude and
society.latitude and society.longitude` of bookings.py 129. -/
def coordsTruthy4 (p : ServiceProvider) (s : Society) : Bool :=
  coordTruthy p.latitude && coordTruthy p.longitude &&
    coordTruthy s.latitude && coordTruthy s.longitude

/-- The subscription-based area restriction of create_booking
(bookings.py 128-164): when all four coordinates are truthy the inline
haversine distance is compared against the tier radius, else the city
fallback runs.  Inside the truthy branch the stored values equal getD 0. -/
noncomputable def booking_area_check (p : ServiceProvider) (s : Society)
    (tier : Option String) : Option BookingErr :=
  if coordsTruthy4 p s then
    (if (booking_max_radius tier : ℝ) <
        haversine ((p.latitude.getD 0 : ℚ) : ℝ) ((p.longitude.getD 0 : ℚ) : ℝ)
          ((s.latitude.getD 0 : ℚ) : ℝ) ((s.longitude.getD 0 : ℚ) : ℝ) then
      some ⟨403, BookingDetail.radiusDetail (booking_max_radius tier)
        (haversine ((p.latitude.getD 0 : ℚ) : ℝ) ((p.longitude.getD 0 : ℚ) : ℝ)
          ((s.latitude.getD 0 : ℚ) : ℝ) ((s.longitude.getD 0 : ℚ) : ℝ))⟩
    else none)
  else booking_city_check p s tier

/-- Booking lifecycle status at creation (bookings.py 191). -/
inductive BookingStatus where
  | requested
deriving DecidableEq

/-- The booking request payload fields relevant here. -/
structure BookingCreateRequest where
  provider_id : ℕ
  society_id : Option ℕ
  service_name : String
deriving DecidableEq

/-- A persisted booking row. -/
structure ServiceBooking where
  provider_id : ℕ
  society_id : Option ℕ
  service_name : String
  status : BookingStatus
deriving DecidableEq

/-- The new ServiceBooking row built by create_booking (bookings.py 181-193). -/
def mkBooking (req : BookingCreateRequest) : ServiceBooking :=
  ⟨req.provider_id, req.society_id, req.service_name, BookingStatus.requested⟩

/-- create_booking (bookings.py 66-224) restricted to the area-restriction
logic and persistence: db.add/db.commit runs only after the checks, so on a
rejection the booking store is returned unchanged together with the error;
the provider, optional society and resolved tier arrive as already-resolved
inputs (the lookups are plain primary-key reads). -/
noncomputable def create_booking (p : ServiceProvider) (soc : Option Society)
    (tier : Option String) (req : BookingCreateRequest)
    (store : List ServiceBooking) : List ServiceBooking × Option BookingErr :=
  match soc with
  | some s =>
    match booking_area_check p s tier with
    | some e => (store, some e)
    | none => (store ++ [mkBooking req], none)
  | none => (store ++ [mkBooking req], none)

/-- The membership test `society.city.lower() in [area.lower() for area in
provider.service_areas]`, guarded by the truthiness and isinstance checks of
societies.py 432-437.  An empty list is falsy in Python, which coincides
with the membership test failing; a non-list JSON value is not
representable in this model (the source skips the provider then). -/
def serviceAreasContain (sa : Option (List String)) (city : String) : Bool :=
  match sa with
  | some l => (l.map pyLower).contains (pyLower city)
  | none => false

/-- The inner `continue` conditions of the city fallback in
get_nearby_vendors (societies.py 428-439): true iff the provider must be
skipped, i.e. both cities truthy, lowercased cities differ, and the
service-areas override does not contain the society city. -/
def nv_city_skip (s : Society) (p : ServiceProvider) : Bool :=
  match s.city, p.city with
  | some sc, some pc =>
    decide (sc ≠ "") && decide (pc ≠ "") && !(lowerEq sc pc) &&
      !(serviceAreasContain p.service_areas sc)
  | _, _ => false

/-- distance_km as computed per provider in get_nearby_vendors
(societies.py 416-422): None unless all four coordinates are truthy. -/
noncomputable def nv_distance (s : Society) (p : ServiceProvider) : Option ℝ :=
  if coordTruthy s.latitude && coordTruthy s.longitude &&
      coordTruthy p.latitude && coordTruthy p.longitude then
    calculate_distance (s.latitude.getD 0) (s.longitude.getD 0)
      (p.latitude.getD 0) (p.longitude.getD 0)
  else none

/-- Membership of a provider in the pre-pagination result list of
get_nearby_vendors (societies.py 399-450): the provider survives the
radius_km `continue` (line 425, truthiness on both the parameter and the
distance) and the city-fallback `continue` (428-439, reached when
distance_km is falsy).  The subscription tier is looked up for ranking
metadata only and plays no part in this filter. -/
def nv_eligible (radius_km : Option ℕ) (s : Society) (p : ServiceProvider) : Prop :=
  (¬ ∃ r, radius_km = some r ∧ r ≠ 0 ∧
      ∃ d, nv_distance s p = some d ∧ d ≠ 0 ∧ (r : ℝ) < d) ∧
  ¬ ((nv_distance s p = none ∨ nv_distance s p = some 0) ∧ nv_city_skip s p = true)

/-- The line `search_radius = radius_km if radius_km else max_radius` of
providers.py 412; a 0 parameter is falsy. -/
def search_radius (radius_km : Option ℕ) (tier : Option String) : ℕ :=
  match radius_km with
  | some r => if r ≠ 0 then r else get_subscription_radius_km tier
  | none => get_subscription_radius_km tier

/-- The condition `society.city and provider.city and society.city.lower()
== provider.city.lower()` of providers.py 439. -/
def ns_city_same (s : Society) (p : ServiceProvider) : Bool :=
  match s.city, p.city with
  | some sc, some pc => decide (sc ≠ "") && decide (pc ≠ "") && lowerEq sc pc
  | _, _ => false

/-- The no-coordinates branch of get_nearby_societies (providers.py
473-478): `Society.city.ilike` on the provider city pattern when the provider city is
truthy, otherwise no filter; ilike is case-insensitive substring matching
and a NULL column never matches. -/
def ns_nocoord_city (p : ServiceProvider) (s : Society) : Prop :=
  match p.city with
  | some pc =>
    if pc ≠ "" then
      (match s.city with
       | some sc => (pyLower pc).data <:+: (pyLower sc).data
       | none => False)
    else True
  | none => True

/-- Membership of a society in the result of get_nearby_societies
(providers.py 414-503) for a provider with the given resolved tier: if the
provider coordinates are truthy, a society with truthy coordinates is kept
iff the computed distance is non-None and at most search_radius, and a
society without them iff the cities match case-insensitively; a provider
without truthy coordinates falls back to the city ilike query. -/
def ns_eligible (radius_km : Option ℕ) (tier : Option String)
    (p : ServiceProvider) (s : Society) : Prop :=
  if coordTruthy p.latitude && coordTruthy p.longitude then
    (if coordTruthy s.latitude && coordTruthy s.longitude then
      (∃ d, calculate_distance (p.latitude.getD 0) (p.longitude.getD 0)
          (s.latitude.getD 0) (s.longitude.getD 0) = some d ∧
        d ≤ (search_radius radius_km tier : ℝ))
    else ns_city_same s p = true)
  else ns_nocoord_city p s

/-- The per-provider ranking metadata dictionary built by the listing
endpoints (societies.py 441-450, providers.py 301-309). -/
structure VendorMeta where
  featured_listing : Bool
  priority_ranking : ℤ
  distance_km : Option ℝ
  rating : ℝ
  reviews_count : ℤ

/-- The sentinel `x["distance_km"] if x["distance_km"] is not None else
999999` of societies.py 459. -/
noncomputable def distOrSentinel (m : VendorMeta) : ℝ :=
  match m.distance_km with
  | some d => d
  | none => 999999

/-- The composite sort key of the priority mode (societies.py 455-463 and
providers.py 314-322): (not featured, -priority_ranking,
distance-or-999999, -rating, -reviews_count), compared lexicographically. -/
noncomputable def sort_key (m : VendorMeta) : Bool ×ₗ (ℤ ×ₗ (ℝ ×ₗ (ℝ ×ₗ ℤ))) :=
  toLex (!m.featured_listing,
    toLex (-m.priority_ranking,
      toLex (distOrSentinel m, toLex (-m.rating, -m.reviews_count))))

/-- Comparison of two metadata entries by the composite key.  The Python method
list.sort with this key orders ascending by exactly this total preorder. -/
def prioLe (x y : VendorMeta) : Prop := sort_key x ≤ sort_key y

noncomputable instance : DecidableRel prioLe :=
  fun x y => inferInstanceAs (Decidable (sort_key x ≤ sort_key y))

instance : IsTotal VendorMeta prioLe :=
  ⟨fun a b => le_total (sort_key a) (sort_key b)⟩

instance : IsTrans VendorMeta prioLe :=
  ⟨fun _ _ _ h1 h2 => le_trans h1 h2⟩

/-- providers_with_metadata.sort(key=...) in the default priority mode: a
stable sort by `prioLe`.  The Python sort is stable, and any two stable sorts
by the same total preorder agree, so insertion sort models it exactly. -/
noncomputable def sortByPriority (l : List VendorMeta) : List VendorMeta :=
  List.insertionSort prioLe l

/-- The slice `ordered[skip : skip + limit]` together with the count
`total = len(ordered)` computed before slicing (societies.py 476, 502). -/
def paginate {α : Type} (l : List α) (skip limit : ℕ) : List α × ℕ :=
  ((l.drop skip).take limit, l.length)

/-! ## Helper lemmas about the geometry -/

/-- The haversine kernel is symmetric in its two coordinate pairs. -/
theorem haversine_symm (lat1 lon1 lat2 lon2 : ℝ) :
    haversine lat1 lon1 lat2 lon2 = haversine lat2 lon2 lat1 lon1 := by
  have key : Real.sin (radians (lat2 - lat1) / 2) ^ 2 +
      Real.cos (radians lat1) * Real.cos (radians lat2) *
        Real.sin (radians (lon2 - lon1) / 2) ^ 2
      = Real.sin (radians (lat1 - lat2) / 2) ^ 2 +
        Real.cos (radians lat2) * Real.cos (radians lat1) *
          Real.sin (radians (lon1 - lon2) / 2) ^ 2 := by
    have h1 : radians (lat2 - lat1) / 2 = -(radians (lat1 - lat2) / 2) := by
      unfold radians; ring
    have h2 : radians (lon2 - lon1) / 2 = -(radians (lon1 - lon2) / 2) := by
      unfold radians; ring
    rw [h1, h2, Real.sin_neg, Real.sin_neg, neg_sq, neg_sq]
    ring
  unfold haversine
  rw [key]

/-- The haversine distance from a point to itself is exactly 0. -/
theorem haversine_self (lat lon : ℝ) : haversine lat lon lat lon = 0 := by
  unfold haversine
  have h1 : radians (lat - lat) / 2 = 0 := by unfold radians; ring
  have h2 : radians (lon - lon) / 2 = 0 := by unfold radians; ring
  rw [h1, h2, Real.sin_zero]
  have hA : (0:ℝ) ^ 2 + Real.cos (radians lat) * Real.cos (radians lat) * 0 ^ 2
      = 0 := by ring
  rw [hA, Real.sqrt_zero, sub_zero, Real.sqrt_one]
  unfold atan2
  rw [if_pos (by norm_num : (0:ℝ) < 1)]
  norm_num [Real.arctan_zero]

/-- The haversine distance between the two poles (at longitude 45) is
exactly 6371 * pi, a concrete distance larger than any finite tier radius
except the elite sentinel. -/
theorem haversine_poles : haversine 90 45 (-90) 45 = 6371 * Real.pi := by
  unfold haversine
  have h1 : radians ((-90 : ℝ) - 90) / 2 = -(Real.pi / 2) := by unfold radians; ring
  have h2 : radians ((45 : ℝ) - 45) / 2 = 0 := by unfold radians; ring
  have h3 : radians (90 : ℝ) = Real.pi / 2 := by unfold radians; ring
  rw [h1, h2, h3, Real.sin_neg, Real.sin_pi_div_two, Real.sin_zero,
    Real.cos_pi_div_two]
  have hA : (-(1:ℝ)) ^ 2 + 0 * Real.cos (radians (-90)) * 0 ^ 2 = 1 := by ring
  rw [hA]
  rw [show (1:ℝ) - 1 = 0 by norm_num, Real.sqrt_one, Real.sqrt_zero]
  unfold atan2
  rw [if_neg (lt_irrefl (0:ℝ)), if_neg (lt_irrefl (0:ℝ)), if_pos one_pos]
  ring

/-- atan2 of two nonnegative arguments is at most pi/2. -/
theorem atan2_le_pi_div_two (y x : ℝ) (hy : 0 ≤ y) (hx : 0 ≤ x) :
    atan2 y x ≤ Real.pi / 2 := by
  unfold atan2
  rcases lt_or_eq_of_le hx with h | h
  · rw [if_pos h]
    exact le_of_lt (Real.arctan_lt_pi_div_two _)
  · rw [← h, if_neg (lt_irrefl (0:ℝ)), if_neg (lt_irrefl (0:ℝ))]
    by_cases hy2 : 0 < y
    · rw [if_pos hy2]
    · rw [if_neg hy2, if_neg (not_lt.mpr hy)]
      linarith [Real.pi_pos]

/-- The kernel of the haversine bound: 6371 * (2 * atan2 of square roots)
stays below the 999999 sentinel. -/
theorem haversine_kernel_bound (A : ℝ) :
    6371 * (2 * atan2 (Real.sqrt A) (Real.sqrt (1 - A))) < 999999 := by
  have h := atan2_le_pi_div_two (Real.sqrt A) (Real.sqrt (1 - A))
    (Real.sqrt_nonneg _) (Real.sqrt_nonneg _)
  have hpi := Real.pi_lt_four
  linarith

/-- No haversine output reaches the 999999 sentinel. -/
theorem haversine_lt_sentinel (lat1 lon1 lat2 lon2 : ℝ) :
    haversine lat1 lon1 lat2 lon2 < 999999 := by
  unfold haversine
  exact haversine_kernel_bound _

/-- Every distance calculate_distance actually returns is below 999999. -/
theorem calculate_distance_lt_sentinel (a b c d : ℚ) (e : ℝ)
    (h : calculate_distance a b c d = some e) : e < 999999 := by
  unfold calculate_distance at h
  split_ifs at h with hc
  rw [Option.some_inj] at h
  subst h
  exact haversine_lt_sentinel _ _ _ _

/-! ## Claim theorems -/

/-- Claim C9: GeoDistance symmetry — calculate_distance with swapped
coordinate pairs yields the same value, including the None guard cases. -/
theorem c9_distance_symm (lat1 lon1 lat2 lon2 : ℚ) :
    calculate_distance lat1 lon1 lat2 lon2 = calculate_distance lat2 lon2 lat1 lon1 := by
  unfold calculate_distance
  by_cases h : lat1 = 0 ∨ lon1 = 0 ∨ lat2 = 0 ∨ lon2 = 0
  · rw [if_pos h, if_pos (by tauto)]
  · rw [if_neg h, if_neg (by tauto), haversine_symm]

/-- Claim C7: Paginator — for every sequence, every skip and every limit in
[1,100], the page length is min(limit, total - skip) (truncated subtraction
is max(0, total - skip)), the reported total is the full pre-slice count
regardless of skip and limit, and slicing beyond the end gives an empty
page rather than an error. -/
theorem c7_pagination {α : Type} (l : List α) (skip limit : ℕ)
    (h1 : 1 ≤ limit) (h2 : limit ≤ 100) :
    (paginate l skip limit).1.length = min limit (l.length - skip) ∧
    (paginate l skip limit).2 = l.length ∧
    (l.length ≤ skip → (paginate l skip limit).1 = []) := by
  refine ⟨?_, rfl, ?_⟩
  · simp [paginate]
  · intro h
    simp [paginate, List.drop_eq_nil_of_le h]

/-- Witness for C7, Scenario 5: seven items, skip 5, limit 10 returns a
page of 2 items and total 7. -/
theorem c7_pagination_witness :
    (paginate (List.range 7) 5 10).1.length = 2 ∧
    (paginate (List.range 7) 5 10).2 = 7 := by
  have h := c7_pagination (List.range 7) 5 10 (by norm_num) (by norm_num)
  exact ⟨h.1.trans (by decide), h.2.1.trans (by decide)⟩

/-- Claim C4: the tier-to-radius table is 10/10/25/25/999999 with default
10 for no tier, the booking-time copy of the table agrees with the
listing-time one, a provider with no currently-active subscription (status
ACTIVE and end_date >= today) resolves to no tier and hence the 10 km
default, and the elite radius is effectively unlimited: no value
calculate_distance can return reaches it. -/
theorem c4_radius_table :
    (get_subscription_radius_km (some ("basic_monthly")) = 10 ∧
     get_subscription_radius_km (some ("basic_yearly")) = 10 ∧
     get_subscription_radius_km (some ("premium_monthly")) = 25 ∧
     get_subscription_radius_km (some ("premium_yearly")) = 25 ∧
     get_subscription_radius_km (some ("elite_yearly")) = 999999 ∧
     get_subscription_radius_km none = 10) ∧
    (∀ t, booking_max_radius t = get_subscription_radius_km t) ∧
    (∀ (today : ℤ) (subs : List VendorSubscription),
      (∀ sub ∈ subs, ¬ (sub.status = SubscriptionStatus.active ∧ today ≤ sub.end_date)) →
      resolvedTier today subs = none ∧
      get_subscription_radius_km (resolvedTier today subs) = 10) ∧
    (∀ (a b c d : ℚ) (e : ℝ), calculate_distance a b c d = some e →
      e < (get_subscription_radius_km (some ("elite_yearly")) : ℝ)) := by
  refine ⟨by decide, ?_, ?_, ?_⟩
  · intro t
    cases t with
    | none => rfl
    | some t => rfl
  · intro today subs h
    have hfind : activeSubscription today subs = none := by
      unfold activeSubscription
      rw [List.find?_eq_none]
      intro sub hsub hp
      simp only [Bool.and_eq_true, decide_eq_true_eq] at hp
      exact h sub hsub hp
    have hres : resolvedTier today subs = none := by
      unfold resolvedTier
      rw [hfind]
    exact ⟨hres, by rw [hres]; rfl⟩
  · intro a b c d e h
    have h2 := calculate_distance_lt_sentinel a b c d e h
    have h4 : get_subscription_radius_km (some ("elite_yearly")) = 999999 := by decide
    rw [h4]
    exact lt_of_lt_of_le h2 (by norm_num)

/-- Witness for C4: a provider whose only subscription is expired resolves
to the 10 km default, and a concrete achievable distance (pole to pole,
6371 * pi km) is below the elite radius. -/
theorem c4_radius_table_witness :
    get_subscription_radius_km
      (resolvedTier 0 [⟨SubscriptionStatus.expired, 100, none⟩]) = 10 ∧
    6371 * Real.pi < (get_subscription_radius_km (some ("elite_yearly")) : ℝ) := by
  constructor
  · exact (c4_radius_table.2.2.1 0 [⟨SubscriptionStatus.expired, 100, none⟩]
      (by decide)).2
  · have hc : calculate_distance 90 45 (-90) 45 = some (6371 * Real.pi) := by
      unfold calculate_distance
      rw [if_neg (by decide), Option.some_inj]
      push_cast
      exact haversine_poles
    exact c4_radius_table.2.2.2 90 45 (-90) 45 (6371 * Real.pi) hc

/-- Claim C8: tier monotonicity on the radius branch — the tier radius
table is monotone along basic, premium, elite, and for a fixed
provider/society pair with truthy coordinates, whenever the booking-time
distance check passes for a tier of smaller-or-equal radius it also passes
for the larger one, never the reverse. -/
theorem c8_tier_monotonicity :
    (get_subscription_radius_km (some ("basic_monthly")) ≤
        get_subscription_radius_km (some ("premium_monthly")) ∧
      get_subscription_radius_km (some ("premium_monthly")) ≤
        get_subscription_radius_km (some ("elite_yearly"))) ∧
    (∀ (pc sc : Option String) (sa : Option (List String))
      (plat plon slat slon : ℚ) (t1 t2 : Option String),
      plat ≠ 0 → plon ≠ 0 → slat ≠ 0 → slon ≠ 0 →
      booking_max_radius t1 ≤ booking_max_radius t2 →
      booking_area_check ⟨pc, some plat, some plon, sa⟩
        ⟨sc, some slat, some slon⟩ t1 = none →
      booking_area_check ⟨pc, some plat, some plon, sa⟩
        ⟨sc, some slat, some slon⟩ t2 = none) := by
  refine ⟨by decide, ?_⟩
  intro pc sc sa plat plon slat slon t1 t2 h1 h2 h3 h4 hmono hnone
  unfold booking_area_check at hnone ⊢
  rw [if_pos (by simp [coordsTruthy4, coordTruthy, h1, h2, h3, h4])] at hnone ⊢
  simp only [Option.getD_some] at hnone ⊢
  by_cases hlt : (booking_max_radius t1 : ℝ) <
      haversine (plat : ℝ) (plon : ℝ) (slat : ℝ) (slon : ℝ)
  · rw [if_pos hlt] at hnone
    cases hnone
  · rw [if_neg (fun hlt2 => hlt (lt_of_le_of_lt (by exact_mod_cast hmono) hlt2))]

/-- Witness for C8: with equal provider and society coordinates the basic
check passes (distance exactly 0), hence by monotonicity the premium check
passes too. -/
theorem c8_tier_monotonicity_witness :
    booking_area_check ⟨some ("Thane"), some 19, some 72, none⟩
      ⟨some ("Thane"), some 19, some 72⟩ (some ("premium_monthly")) = none := by
  apply c8_tier_monotonicity.2 (some ("Thane")) (some ("Thane")) none 19 72 19 72
    (some ("basic_monthly")) (some ("premium_monthly"))
    (by norm_num) (by norm_num) (by norm_num) (by norm_num) (by decide)
  have hneg : ¬ ((booking_max_radius (some ("basic_monthly")) : ℝ) <
      haversine (((19:ℚ)):ℝ) (((72:ℚ)):ℝ) (((19:ℚ)):ℝ) (((72:ℚ)):ℝ)) := by
    rw [haversine_self]
    exact not_lt.mpr (Nat.cast_nonneg _)
  unfold booking_area_check
  rw [if_pos (by decide)]
  simp only [Option.getD_some]
  rw [if_neg hneg]

/-- Claim C2: BookingEligibilityGate — for a booking with a society where
both sides have truthy coordinates: if the computed distance exceeds the
tier max radius, create_booking returns a 403 error whose structured detail
carries both the max radius and the computed distance, and the booking
store is unchanged; if the distance is within the radius the distance check
does not reject and the booking row is persisted. -/
theorem c2_booking_gate (pc sc : Option String) (sa : Option (List String))
    (plat plon slat slon : ℚ) (tier : Option String)
    (req : BookingCreateRequest) (store : List ServiceBooking)
    (h1 : plat ≠ 0) (h2 : plon ≠ 0) (h3 : slat ≠ 0) (h4 : slon ≠ 0) :
    ((booking_max_radius tier : ℝ) <
        haversine (plat : ℝ) (plon : ℝ) (slat : ℝ) (slon : ℝ) →
      create_booking ⟨pc, some plat, some plon, sa⟩
          (some ⟨sc, some slat, some slon⟩) tier req store =
        (store, some ⟨403, BookingDetail.radiusDetail (booking_max_radius tier)
          (haversine (plat : ℝ) (plon : ℝ) (slat : ℝ) (slon : ℝ))⟩)) ∧
    (haversine (plat : ℝ) (plon : ℝ) (slat : ℝ) (slon : ℝ) ≤
        (booking_max_radius tier : ℝ) →
      booking_area_check ⟨pc, some plat, some plon, sa⟩
        ⟨sc, some slat, some slon⟩ tier = none ∧
      create_booking ⟨pc, some plat, some plon, sa⟩
          (some ⟨sc, some slat, some slon⟩) tier req store =
        (store ++ [mkBooking req], none)) := by
  constructor
  · intro hlt
    have harea : booking_area_check ⟨pc, some plat, some plon, sa⟩
        ⟨sc, some slat, some slon⟩ tier =
        some ⟨403, BookingDetail.radiusDetail (booking_max_radius tier)
          (haversine (plat : ℝ) (plon : ℝ) (slat : ℝ) (slon : ℝ))⟩ := by
      unfold booking_area_check
      rw [if_pos (by simp [coordsTruthy4, coordTruthy, h1, h2, h3, h4])]
      simp only [Option.getD_some]
      rw [if_pos hlt]
    simp only [create_booking]
    rw [harea]
  · intro hle
    have harea : booking_area_check ⟨pc, some plat, some plon, sa⟩
        ⟨sc, some slat, some slon⟩ tier = none := by
      unfold booking_area_check
      rw [if_pos (by simp [coordsTruthy4, coordTruthy, h1, h2, h3, h4])]
      simp only [Option.getD_some]
      rw [if_neg (not_lt.mpr hle)]
    refine ⟨harea, ?_⟩
    simp only [create_booking]
    rw [harea]

/-- Witness for C2: a provider at the north pole booking a society at the
south pole with no subscription (10 km radius) is rejected with the 403
radius detail carrying radius 10 and distance 6371*pi, and the empty store
stays empty. -/
theorem c2_booking_gate_witness :
    create_booking ⟨some ("Mumbai"), some 90, some 45, none⟩
        (some ⟨some ("Pune"), some (-90), some 45⟩) none
        ⟨1, some 1, ("cleaning")⟩ [] =
      ([], some ⟨403, BookingDetail.radiusDetail 10
        (haversine (((90:ℚ)):ℝ) (((45:ℚ)):ℝ) ((((-90):ℚ)):ℝ) (((45:ℚ)):ℝ))⟩) := by
  have h := (c2_booking_gate (some ("Mumbai")) (some ("Pune")) none 90 45 (-90) 45
    none ⟨1, some 1, ("cleaning")⟩ []
    (by norm_num) (by norm_num) (by norm_num) (by norm_num)).1
  have hlt : ((booking_max_radius none : ℕ) : ℝ) <
      haversine (((90:ℚ)):ℝ) (((45:ℚ)):ℝ) ((((-90):ℚ)):ℝ) (((45:ℚ)):ℝ) := by
    have hp : haversine (((90:ℚ)):ℝ) (((45:ℚ)):ℝ) ((((-90):ℚ)):ℝ) (((45:ℚ)):ℝ)
        = 6371 * Real.pi := by
      push_cast
      exact haversine_poles
    rw [hp, show booking_max_radius none = 10 from rfl]
    push_cast
    nlinarith [Real.pi_gt_three]
  exact h hlt

/-- Helper: when the computed distance of the nearby-vendors filter is
None, the radius continue cannot fire and eligibility reduces to not being
skipped by the city fallback. -/
theorem nv_eligible_iff_of_none (radius_km : Option ℕ) (s : Society)
    (p : ServiceProvider) (hd : nv_distance s p = none) :
    nv_eligible radius_km s p ↔ nv_city_skip s p = false := by
  unfold nv_eligible
  rw [hd]
  constructor
  · rintro ⟨_, hno⟩
    cases hsk : nv_city_skip s p with
    | false => rfl
    | true => exact absurd ⟨Or.inl rfl, hsk⟩ hno
  · intro hsk
    refine ⟨?_, ?_⟩
    · rintro ⟨r, hr, hrne, d, hdd, hdne, hlt⟩
      cases hdd
    · rintro ⟨_, hsk2⟩
      rw [hsk] at hsk2
      cases hsk2

/-- Claim C1 (counterexample): in get_nearby_vendors with no radius_km
query parameter, a basic_monthly provider at distance 6371*pi km (pole to
pole, far above the 10 km basic radius) is still eligible: the listing
filter never consults the subscription radius. -/
theorem c1_listing_radius_counterexample :
    nv_eligible none ⟨some ("Mumbai"), some 90, some 45⟩
      ⟨some ("Pune"), some (-90), some 45, none⟩ ∧
    nv_distance ⟨some ("Mumbai"), some 90, some 45⟩
      ⟨some ("Pune"), some (-90), some 45, none⟩ = some (6371 * Real.pi) ∧
    (get_subscription_radius_km (some ("basic_monthly")) : ℝ) < 6371 * Real.pi := by
  have hdist : nv_distance ⟨some ("Mumbai"), some 90, some 45⟩
      ⟨some ("Pune"), some (-90), some 45, none⟩ = some (6371 * Real.pi) := by
    unfold nv_distance
    rw [if_pos (by decide)]
    unfold calculate_distance
    rw [if_neg (by decide), Option.some_inj]
    show haversine (((90:ℚ)):ℝ) (((45:ℚ)):ℝ) ((((-90):ℚ)):ℝ) (((45:ℚ)):ℝ)
      = 6371 * Real.pi
    push_cast
    exact haversine_poles
  refine ⟨⟨?_, ?_⟩, hdist, ?_⟩
  · rintro ⟨r, hr, _⟩
    cases hr
  · rintro ⟨hdd, _⟩
    rw [hdist] at hdd
    rcases hdd with hdd | hdd
    · cases hdd
    · rw [Option.some_inj] at hdd
      have := Real.pi_pos
      linarith
  · rw [show get_subscription_radius_km (some ("basic_monthly")) = 10 from by decide]
    push_cast
    nlinarith [Real.pi_gt_three]

/-- Claim C1 (amended): in get_nearby_societies with no caller radius
override, for a provider and society whose coordinates are all truthy, the
society is listed iff the computed haversine distance is at most the
subscription-derived max radius, and an elite_yearly tier always passes
(its 999999 sentinel exceeds every haversine value).  In get_nearby_vendors
the subscription radius is not applied at all (see the counterexample). -/
theorem c1_listing_radius_amended (pc2 sc2 : Option String)
    (sa : Option (List String)) (plat plon slat slon : ℚ) (tier : Option String)
    (h1 : plat ≠ 0) (h2 : plon ≠ 0) (h3 : slat ≠ 0) (h4 : slon ≠ 0) :
    (ns_eligible none tier ⟨pc2, some plat, some plon, sa⟩
        ⟨sc2, some slat, some slon⟩ ↔
      haversine (plat : ℝ) (plon : ℝ) (slat : ℝ) (slon : ℝ) ≤
        (get_subscription_radius_km tier : ℝ)) ∧
    (tier = some ("elite_yearly") →
      ns_eligible none tier ⟨pc2, some plat, some plon, sa⟩
        ⟨sc2, some slat, some slon⟩) := by
  have hcd : calculate_distance plat plon slat slon =
      some (haversine (plat : ℝ) (plon : ℝ) (slat : ℝ) (slon : ℝ)) := by
    unfold calculate_distance
    rw [if_neg (by simp [h1, h2, h3, h4])]
  have helig : ns_eligible none tier ⟨pc2, some plat, some plon, sa⟩
      ⟨sc2, some slat, some slon⟩ ↔
      haversine (plat : ℝ) (plon : ℝ) (slat : ℝ) (slon : ℝ) ≤
        (get_subscription_radius_km tier : ℝ) := by
    unfold ns_eligible
    rw [if_pos (by simp [coordTruthy, h1, h2])]
    rw [if_pos (by simp [coordTruthy, h3, h4])]
    simp only [Option.getD_some]
    rw [hcd]
    constructor
    · rintro ⟨d, hd, hle⟩
      rw [Option.some_inj] at hd
      rw [hd]
      exact hle
    · intro hle
      exact ⟨haversine (plat : ℝ) (plon : ℝ) (slat : ℝ) (slon : ℝ), rfl, hle⟩
  refine ⟨helig, ?_⟩
  intro htier
  rw [helig, htier]
  have hb := haversine_lt_sentinel (plat : ℝ) (plon : ℝ) (slat : ℝ) (slon : ℝ)
  rw [show get_subscription_radius_km (some ("elite_yearly")) = 999999 from by decide]
  push_cast
  linarith

/-- Witness for C1 (amended): a provider at (19,72) with no tier sees a
society at the same coordinates (distance 0, within the 10 km default). -/
theorem c1_listing_radius_witness :
    ns_eligible none none ⟨some ("A"), some 19, some 72, none⟩
      ⟨some ("B"), some 19, some 72⟩ := by
  have h := (c1_listing_radius_amended (some ("A")) (some ("B")) none 19 72 19 72
    none (by norm_num) (by norm_num) (by norm_num) (by norm_num)).1
  exact h.mpr (by rw [haversine_self]; exact Nat.cast_nonneg _)

/-- Claim C3 (counterexample): the booking endpoint does apply a city-based
check when coordinates are absent: a provider in Mumbai with no coordinates
and no subscription booking for a society in Pune with no coordinates is
rejected with a 403 city error, contradicting the claim that no
geographic/city-based rejection occurs at booking time. -/
theorem c3_booking_city_counterexample :
    booking_area_check ⟨some ("Mumbai"), none, none, none⟩
      ⟨some ("Pune"), none, none⟩ none =
      some ⟨403, BookingDetail.cityDetail⟩ := by
  unfold booking_area_check
  rw [if_neg (by decide)]
  unfold booking_city_check
  dsimp only
  rw [if_pos ⟨by decide, by decide⟩, if_pos ⟨by decide, by decide⟩]

/-- Claim C3 (amended): when not all four coordinates are truthy,
create_booking runs the tier-gated city fallback instead: it rejects with a
403 city error iff both cities are present and nonempty, differ
case-insensitively, and the tier is absent, empty or basic; otherwise it
does not reject.  The service_areas override is not consulted. -/
theorem c3_booking_city_amended (p : ServiceProvider) (s : Society)
    (tier : Option String) (hco : coordsTruthy4 p s = false) :
    booking_area_check p s tier = booking_city_check p s tier ∧
    (booking_area_check p s tier = none ∨
      booking_area_check p s tier = some ⟨403, BookingDetail.cityDetail⟩) ∧
    (booking_area_check p s tier = some ⟨403, BookingDetail.cityDetail⟩ ↔
      ∃ pc sc, p.city = some pc ∧ s.city = some sc ∧ pc ≠ "" ∧ sc ≠ "" ∧
        lowerEq pc sc = false ∧ basicOrNoTier tier = true) := by
  have hb : booking_area_check p s tier = booking_city_check p s tier := by
    unfold booking_area_check
    rw [if_neg (by simp [hco])]
  refine ⟨hb, ?_, ?_⟩
  · rw [hb]
    unfold booking_city_check
    rcases p.city with _ | pc
    · exact Or.inl rfl
    · rcases s.city with _ | sc
      · exact Or.inl rfl
      · dsimp only
        split_ifs
        · exact Or.inr rfl
        · exact Or.inl rfl
        · exact Or.inl rfl
  · rw [hb]
    constructor
    · intro h
      unfold booking_city_check at h
      rcases hpc : p.city with _ | pc
      · rw [hpc] at h
        cases h
      · rcases hsc : s.city with _ | sc
        · rw [hpc, hsc] at h
          cases h
        · rw [hpc, hsc] at h
          dsimp only at h
          split_ifs at h with hne hrej
          exact ⟨pc, sc, rfl, rfl, hne.1, hne.2,
            Bool.eq_false_iff.mpr hrej.1, hrej.2⟩
    · rintro ⟨pc, sc, hpc, hsc, hpcne, hscne, hlow, hbas⟩
      unfold booking_city_check
      rw [hpc, hsc]
      dsimp only
      rw [if_pos ⟨hpcne, hscne⟩, if_pos ⟨by simp [hlow], hbas⟩]

/-- Witness for C3 (amended): a basic-yearly provider in Delhi with no
coordinates is rejected when booking for a society in Goa. -/
theorem c3_booking_city_witness :
    booking_area_check ⟨some ("Delhi"), none, none, none⟩
      ⟨some ("Goa"), none, none⟩ (some ("basic_yearly")) =
      some ⟨403, BookingDetail.cityDetail⟩ := by
  have h := c3_booking_city_amended ⟨some ("Delhi"), none, none, none⟩
    ⟨some ("Goa"), none, none⟩ (some ("basic_yearly")) (by decide)
  exact h.2.2.mpr ⟨("Delhi"), ("Goa"), rfl, rfl, by decide, by decide,
    by decide, by decide⟩

/-- Claim C6 (counterexample): a provider with no coordinates, no city and
no service areas is eligible in get_nearby_vendors for a society in Pune
with no coordinates — the claimed iff fails because when either city is
missing the fallback admits the provider unconditionally. -/
theorem c6_city_fallback_counterexample :
    nv_eligible none ⟨some ("Pune"), none, none⟩ ⟨none, none, none, none⟩ ∧
    nv_distance ⟨some ("Pune"), none, none⟩ ⟨none, none, none, none⟩ = none ∧
    (⟨none, none, none, none⟩ : ServiceProvider).city = none ∧
    (⟨none, none, none, none⟩ : ServiceProvider).service_areas = none := by
  refine ⟨⟨?_, ?_⟩, rfl, rfl, rfl⟩
  · rintro ⟨r, hr, _⟩
    cases hr
  · rintro ⟨_, hsk⟩
    exact absurd hsk (by decide)

/-- Claim C6 (amended): in get_nearby_vendors, when the distance is unknown
(not all coordinates truthy) and both cities are present and nonempty, the
provider is eligible iff the lowercased cities are equal or the society
city is contained case-insensitively in the service_areas of the provider; the
subscription tier plays no role (nv_eligible does not even consult it).
When either city is missing or empty the provider is unconditionally
eligible on this path. -/
theorem c6_city_fallback_amended (radius_km : Option ℕ) (s : Society)
    (p : ServiceProvider)
    (hco : (coordTruthy s.latitude && coordTruthy s.longitude &&
        coordTruthy p.latitude && coordTruthy p.longitude) = false) :
    nv_distance s p = none ∧
    (∀ sc pc, s.city = some sc → p.city = some pc → sc ≠ "" → pc ≠ "" →
      (nv_eligible radius_km s p ↔
        (lowerEq sc pc = true ∨ serviceAreasContain p.service_areas sc = true))) ∧
    (nv_city_skip s p = false → nv_eligible radius_km s p) := by
  have hd : nv_distance s p = none := by
    unfold nv_distance
    rw [if_neg (by simp [hco])]
  refine ⟨hd, ?_, fun h => (nv_eligible_iff_of_none radius_km s p hd).mpr h⟩
  intro sc pc hsc hpc hscne hpcne
  rw [nv_eligible_iff_of_none radius_km s p hd]
  cases hle : lowerEq sc pc <;>
    cases hsa : serviceAreasContain p.service_areas sc <;>
      simp [nv_city_skip, hsc, hpc, hscne, hpcne, hle, hsa]

/-- Witness for C6 (amended), Scenario 3: society city "thane" and provider
city "Thane", both without coordinates, match case-insensitively and the
provider is eligible. -/
theorem c6_city_fallback_witness :
    nv_eligible none ⟨some ("thane"), none, none⟩
      ⟨some ("Thane"), none, none, none⟩ := by
  have h := c6_city_fallback_amended none ⟨some ("thane"), none, none⟩
    ⟨some ("Thane"), none, none, none⟩ (by decide)
  exact (h.2.1 ("thane") ("Thane") rfl rfl (by decide) (by decide)).mpr
    (Or.inl (by decide))

/-- Claim C10: missing-coordinate detection is truthiness, not presence —
calculate_distance returns None whenever any of the four components equals
0, and at the call sites a present-but-zero coordinate makes the
nearby-vendors filter and the booking gate skip the distance branch and
fall through to the city-based path. -/
theorem c10_truthiness :
    (∀ (a b c d : ℚ), (a = 0 ∨ b = 0 ∨ c = 0 ∨ d = 0) →
      calculate_distance a b c d = none) ∧
    (∀ (s : Society) (p : ServiceProvider) (radius_km : Option ℕ)
      (tier : Option String),
      (p.latitude = some 0 ∨ p.longitude = some 0 ∨
        s.latitude = some 0 ∨ s.longitude = some 0) →
      nv_distance s p = none ∧
      (nv_eligible radius_km s p ↔ nv_city_skip s p = false) ∧
      booking_area_check p s tier = booking_city_check p s tier) := by
  constructor
  · intro a b c d h
    unfold calculate_distance
    rw [if_pos h]
  · intro s p radius_km tier h
    have hfour : (coordTruthy s.latitude && coordTruthy s.longitude &&
        coordTruthy p.latitude && coordTruthy p.longitude) = false := by
      rcases h with h | h | h | h <;> simp [h, coordTruthy]
    have hco4 : coordsTruthy4 p s = false := by
      unfold coordsTruthy4
      rcases h with h | h | h | h <;> simp [h, coordTruthy]
    have hd : nv_distance s p = none := by
      unfold nv_distance
      rw [if_neg (by simp [hfour])]
    refine ⟨hd, nv_eligible_iff_of_none radius_km s p hd, ?_⟩
    unfold booking_area_check
    rw [if_neg (by simp [hco4])]

/-- Witness for C10: a zero fourth component makes calculate_distance
return None, and a society with longitude 0.0 (present but falsy) gets no
distance in the nearby-vendors listing. -/
theorem c10_truthiness_witness :
    calculate_distance 1 2 3 0 = none ∧
    nv_distance ⟨some ("A"), some 5, some 0⟩
      ⟨some ("B"), some 3, some 4, none⟩ = none := by
  constructor
  · exact c10_truthiness.1 1 2 3 0 (Or.inr (Or.inr (Or.inr rfl)))
  · exact (c10_truthiness.2 ⟨some ("A"), some 5, some 0⟩
      ⟨some ("B"), some 3, some 4, none⟩ none none
      (Or.inr (Or.inr (Or.inr rfl)))).1

/-- Helper: unfolding of the lexicographic comparison on the composite
priority sort key. -/
theorem prioLe_iff (x y : VendorMeta) :
    prioLe x y ↔
      ((!x.featured_listing) < (!y.featured_listing) ∨
        ((!x.featured_listing) = (!y.featured_listing) ∧
          (-x.priority_ranking < -y.priority_ranking ∨
            (-x.priority_ranking = -y.priority_ranking ∧
              (distOrSentinel x < distOrSentinel y ∨
                (distOrSentinel x = distOrSentinel y ∧
                  (-x.rating < -y.rating ∨
                    (-x.rating = -y.rating ∧
                      -x.reviews_count ≤ -y.reviews_count)))))))) := by
  unfold prioLe sort_key
  simp only [Prod.Lex.le_iff]

/-- Claim C5: the default priority ranking — the output of sortByPriority
is sorted ascending on the composite key (not featured, -priority,
distance-or-999999, -rating, -reviews); in any list sorted by that key, an
unknown-distance entry tied with a later known-distance entry on featured
and priority forces that known distance to be at least the 999999 sentinel
(and no calculate_distance output ever reaches 999999, so within the
pipeline known-distance providers sort strictly before unknown-distance
ones); among entries tied on the first three keys the earlier one has the
higher-or-equal rating; and Scenario 4: two featured priority-5 providers
at distance 3 with ratings 4.5 and 4.8 rank as [4.8, 4.5]. -/
theorem c5_ranking_priority :
    (∀ l, List.Sorted prioLe (sortByPriority l)) ∧
    (∀ (l2 : List VendorMeta), List.Sorted prioLe l2 →
      ∀ (i j : Fin l2.length), i < j →
      (l2.get i).featured_listing = (l2.get j).featured_listing →
      (l2.get i).priority_ranking = (l2.get j).priority_ranking →
      (l2.get i).distance_km = none →
      ∀ d, (l2.get j).distance_km = some d → (999999 : ℝ) ≤ d) ∧
    (∀ (l2 : List VendorMeta), List.Sorted prioLe l2 →
      ∀ (i j : Fin l2.length), i < j →
      (l2.get i).featured_listing = (l2.get j).featured_listing →
      (l2.get i).priority_ranking = (l2.get j).priority_ranking →
      (l2.get i).distance_km = (l2.get j).distance_km →
      (l2.get j).rating ≤ (l2.get i).rating) ∧
    (∀ (a b c d : ℚ) (e : ℝ), calculate_distance a b c d = some e →
      e < 999999) ∧
    sortByPriority [⟨true, 5, some 3, 4.5, 0⟩, ⟨true, 5, some 3, 4.8, 0⟩] =
      [⟨true, 5, some 3, 4.8, 0⟩, ⟨true, 5, some 3, 4.5, 0⟩] := by
  refine ⟨fun l => List.sorted_insertionSort prioLe l, ?_, ?_, ?_, ?_⟩
  · intro l2 hs i j hij hf hp hdnone d hdj
    have hle := List.Sorted.rel_get_of_lt hs hij
    rw [prioLe_iff] at hle
    have hfeq : (!(l2.get i).featured_listing) = (!(l2.get j).featured_listing) := by
      rw [hf]
    have hpeq : -(l2.get i).priority_ranking = -(l2.get j).priority_ranking := by
      rw [hp]
    have hdi : distOrSentinel (l2.get i) = 999999 := by
      unfold distOrSentinel
      rw [hdnone]
    have hdj2 : distOrSentinel (l2.get j) = d := by
      unfold distOrSentinel
      rw [hdj]
    rcases hle with h | ⟨_, h⟩
    · rw [hfeq] at h
      exact absurd h (lt_irrefl _)
    rcases h with h | ⟨_, h⟩
    · rw [hpeq] at h
      exact absurd h (lt_irrefl _)
    rcases h with h | ⟨h, _⟩
    · rw [hdi, hdj2] at h
      exact le_of_lt h
    · rw [hdi, hdj2] at h
      exact le_of_eq h
  · intro l2 hs i j hij hf hp hdist
    have hle := List.Sorted.rel_get_of_lt hs hij
    rw [prioLe_iff] at hle
    have hfeq : (!(l2.get i).featured_listing) = (!(l2.get j).featured_listing) := by
      rw [hf]
    have hpeq : -(l2.get i).priority_ranking = -(l2.get j).priority_ranking := by
      rw [hp]
    have hdeq : distOrSentinel (l2.get i) = distOrSentinel (l2.get j) := by
      unfold distOrSentinel
      rw [hdist]
    rcases hle with h | ⟨_, h⟩
    · rw [hfeq] at h
      exact absurd h (lt_irrefl _)
    rcases h with h | ⟨_, h⟩
    · rw [hpeq] at h
      exact absurd h (lt_irrefl _)
    rcases h with h | ⟨_, h⟩
    · rw [hdeq] at h
      exact absurd h (lt_irrefl _)
    rcases h with h | ⟨h, _⟩
    · exact le_of_lt (neg_lt_neg_iff.mp h)
    · exact le_of_eq (neg_injective h).symm
  · intro a b c d e h
    exact calculate_distance_lt_sentinel a b c d e h
  · have hnot : ¬ prioLe ⟨true, 5, some 3, 4.5, 0⟩ ⟨true, 5, some 3, 4.8, 0⟩ := by
      rw [prioLe_iff]
      intro h
      rcases h with h | ⟨_, h⟩
      · exact absurd h (lt_irrefl _)
      rcases h with h | ⟨_, h⟩
      · exact absurd h (lt_irrefl _)
      rcases h with h | ⟨_, h⟩
      · norm_num [distOrSentinel] at h
      rcases h with h | ⟨h, _⟩
      · norm_num at h
      · norm_num at h
    show List.insertionSort prioLe _ = _
    simp only [List.insertionSort, List.orderedInsert]
    rw [if_neg hnot]

/-- Witness for C5: in a concrete sorted list where an unknown-distance
entry precedes a known-distance entry tied on featured and priority, that
known distance is at least the sentinel. -/
theorem c5_ranking_priority_witness : (999999 : ℝ) ≤ 1000000 := by
  have hsorted : List.Sorted prioLe
      [⟨false, 0, none, 0, 0⟩, ⟨false, 0, some 1000000, 0, 0⟩] := by
    refine List.sorted_cons.mpr ⟨?_, List.sorted_singleton _⟩
    intro b hb
    rw [List.mem_singleton] at hb
    subst hb
    rw [prioLe_iff]
    exact Or.inr ⟨rfl, Or.inr ⟨rfl, Or.inl (by norm_num [distOrSentinel])⟩⟩
  exact c5_ranking_priority.2.1
    [⟨false, 0, none, 0, 0⟩, ⟨false, 0, some 1000000, 0, 0⟩] hsorted
    ⟨0, by decide⟩ ⟨1, by decide⟩ (by decide) rfl rfl rfl 1000000 rfl
